import Mathlib

/-! Bus timing backend: upstream client and the bus events join.

A shallow embedding of `main.go`.

* Go `int` is `Int` (no arithmetic is performed on it, only comparison and copying).
* Go `float32` is `Rat`: the only operations on it are the constant `-1` and copying, and every
  value the JSON decoder can produce (a finite number) is a rational.
* A Go result pair `(T, error)` is `T × Option errorMessage`; `none` is the `nil` error.
* A call that may stop with a run-time panic (slice index out of range) returns `Option`;
  `none` is the panic.
* `http.Get` and the JSON decoder of `encoding/json` are collaborators outside the repository:
  they are the fields of `Remote`.
* Output written with `fmt.Println`, `fmt.Fprint` and the HTTP header is not modelled;
  `getBusEvents` returns the slice it hands to the JSON encoder.
-/

namespace BusTiming

/-- Go `float32`, see the module comment. -/
abbrev float32 := Rat

/-! ## Data model -/

structure busStop where
  Name : String
  Lat : String
  Lon : String
deriving DecidableEq, Repr

structure busStopArrivalInfo where
  EstimatedRemainingTime : float32
  RouteName : String
  RoutevariantID : Int
  BusStopInfo : busStop
deriving DecidableEq, Repr

/-- The `route` object of a forecast entry; only `short_name` is decoded. -/
structure busStopJSON.RouteEntry where
  ShortName : String
deriving DecidableEq, Repr

/-- One element of `busStopJSON.Forecast`; the fields tagged `json:"-"` are never filled. -/
structure busStopJSON.ForecastEntry where
  EstimatedRemainingTime : float32
  Route : busStopJSON.RouteEntry
  RvID : Int
  VehicleName : String
deriving DecidableEq, Repr

/-- One element of `busStopJSON.Geometry`. -/
structure busStopJSON.GeometryEntry where
  Lat : String
  Lon : String
deriving DecidableEq, Repr

structure busStopJSON where
  Forecast : List busStopJSON.ForecastEntry
  Geometry : List busStopJSON.GeometryEntry
  Name : String
deriving DecidableEq, Repr

structure busLocationInfo where
  RouteName : String
  RoutevariantID : Int
  BusCurrentLat : String
  BusCurrentLong : String
  BusCurrentSpeed : String
deriving DecidableEq, Repr

/-- One element of `busLineJSON.Vehicle`; every field of its `projection` object is tagged
`json:"-"`, so only `lat`, `lon` and `speed` carry data. -/
structure busLineJSON.VehicleEntry where
  Lat : String
  Lon : String
  Speed : String
deriving DecidableEq, Repr

structure busLineJSON where
  ID : Int
  RouteName : String
  Vehicle : List busLineJSON.VehicleEntry
deriving DecidableEq, Repr

structure busTrackingInfo where
  BusStopArrivalInfo : busStopArrivalInfo
  BusCurrentLat : String
  BusCurrentLong : String
  BusCurrentSpeed : String
deriving DecidableEq, Repr

structure errorMessage where
  code : Int
  message : String
deriving DecidableEq, Repr

/-- The Go zero value `busStop{}`. -/
def busStop.zero : busStop := ⟨"", "", ""⟩

/-- The Go zero value `busStopArrivalInfo{}`. -/
def busStopArrivalInfo.zero : busStopArrivalInfo := ⟨0, "", 0, busStop.zero⟩

/-- The Go zero value `busLocationInfo{}`. -/
def busLocationInfo.zero : busLocationInfo := ⟨"", 0, "", "", ""⟩

/-- The configured stop ids, `var busStopIds`. -/
def busStopIds : List String :=
  ["378204", "383050", "378202", "383049", "382998", "378237", "378233", "378230", "378229",
   "378228", "378227", "382995", "378224", "378226", "383010", "383009",
   "383006", "383004", "378234", "383003", "378222", "383048", "378203", "382999",
   "378225", "383014", "383013", "383011", "377906", "383018", "383015", "378207"]

/-- The configured line ids, `var busLineIds`. -/
def busLineIds : List String := ["44478", "44479", "44480", "44481"]

/-! ## The remote service -/

/-- The part of `*http.Response` the program reads. -/
structure Response where
  StatusCode : Int
  Body : String
deriving DecidableEq, Repr

/-- The world outside the program: `httpGet url` is the outcome of `http.Get(url)` (`none` when
`err != nil`), `decodeStop body` and `decodeLine body` are the outcome of
`json.NewDecoder(body).Decode(&result)` for the two target types (`none` when `err != nil`). -/
structure Remote where
  httpGet : String → Option Response
  decodeStop : String → Option busStopJSON
  decodeLine : String → Option busLineJSON

/-- The interface `Logic`: each method returns its result pair, or panics (`none`). -/
structure Logic where
  fetchBusTimingAPI : String → Option (busStopArrivalInfo × Option errorMessage)
  fetchBusLocationAPI : String → Option (busLocationInfo × Option errorMessage)

structure Server where
  logic : Logic

/-! ## Upstream client -/

def extractJSONForecastValues (result : busStopJSON) : float32 × String × Int :=
  match result.Forecast with
  | [] => (-1, "Unknown Route Name", -1)
  | f :: _ => (f.EstimatedRemainingTime, f.Route.ShortName, f.RvID)

def extractJSONVehicleValues (result : busLineJSON) : String × String × String :=
  match result.Vehicle with
  | [] => ("Bus Latitude Not Detected", "Bus Longitude Not Detected", "Bus Speed Not Detected")
  | v :: _ => (v.Lat, v.Lon, v.Speed)

/-- The URL of the arrival lookup. -/
def timingURL (id : String) : String :=
  "https://baseride.com/routes/api/platformbusarrival/" ++ id ++ "/?format=json"

/-- The URL of the location lookup. -/
def locationURL (id : String) : String :=
  "https://baseride.com/routes/apigeo/routevariantvehicle/" ++ id ++ "/?format=json"

/-- The method `(*busInfoService).fetchBusTimingAPI`. `result.Geometry[0]` is read before the
forecast values are extracted and panics on an empty geometry list. -/
def busInfoService.fetchBusTimingAPI (net : Remote) (id : String) :
    Option (busStopArrivalInfo × Option errorMessage) :=
  match net.httpGet (timingURL id) with
  | none => some (busStopArrivalInfo.zero, some ⟨400, "No Such ID"⟩)
  | some resp =>
    if resp.StatusCode = 500 then
      some (busStopArrivalInfo.zero, some ⟨400, "No Such ID"⟩)
    else
      match net.decodeStop resp.Body with
      | none => some (busStopArrivalInfo.zero, some ⟨400, "Failed to parse the result"⟩)
      | some result =>
        match result.Geometry[0]? with
        | none => none
        | some g =>
          let busStopInfo : busStop := { Name := result.Name, Lat := g.Lat, Lon := g.Lon }
          let (estimatedTime, routeName, rv_id) := extractJSONForecastValues result
          some ({ EstimatedRemainingTime := estimatedTime
                  RouteName := routeName
                  RoutevariantID := rv_id
                  BusStopInfo := busStopInfo }, none)

/-- The method `(*busInfoService).fetchBusLocationAPI`; it indexes no slice without a length
check, so it always returns. -/
def busInfoService.fetchBusLocationAPI (net : Remote) (id : String) :
    busLocationInfo × Option errorMessage :=
  match net.httpGet (locationURL id) with
  | none => (busLocationInfo.zero, some ⟨400, "No Such ID"⟩)
  | some resp =>
    if resp.StatusCode = 500 then
      (busLocationInfo.zero, some ⟨400, "No Such ID"⟩)
    else
      match net.decodeLine resp.Body with
      | none => (busLocationInfo.zero, some ⟨400, "Failed to parse the result"⟩)
      | some result =>
        let (lat, lon, speed) := extractJSONVehicleValues result
        ({ RouteName := result.RouteName
           RoutevariantID := result.ID
           BusCurrentLat := lat
           BusCurrentLong := lon
           BusCurrentSpeed := speed }, none)

/-- The `busInfoService` value as a `Logic`, as `main` passes it to `NewServer`. -/
def NewBusInfoService (net : Remote) : Logic where
  fetchBusTimingAPI := busInfoService.fetchBusTimingAPI net
  fetchBusLocationAPI := fun id => some (busInfoService.fetchBusLocationAPI net id)

def NewServer (logic : Logic) : Server := { logic := logic }

/-! ## The bus events join -/

/-- The Go `map[int]busLocationInfo`: a finite partial function on keys. -/
def LocMap := Int → Option busLocationInfo

/-- The value `make(map[int]busLocationInfo, 4)`. -/
def LocMap.empty : LocMap := fun _ => none

/-- The assignment `m[k] = v`. -/
def LocMap.set (m : LocMap) (k : Int) (v : busLocationInfo) : LocMap :=
  fun k' => if k' = k then some v else m k'

/-- The index expression `m[k]`: the zero value when the key is absent. -/
def LocMap.index (m : LocMap) (k : Int) : busLocationInfo :=
  (m k).getD busLocationInfo.zero

/-- The first loop of `getBusEvents`: the error of each fetch is discarded and the returned
record is appended. -/
def appendStops (logic : Logic) :
    List String → List busTrackingInfo → Option (List busTrackingInfo)
  | [], allResult => some allResult
  | id :: ids, allResult =>
    match logic.fetchBusTimingAPI id with
    | none => none
    | some (busStop, _) =>
      appendStops logic ids
        (allResult ++ [{ BusStopArrivalInfo := busStop
                         BusCurrentLat := ""
                         BusCurrentLong := ""
                         BusCurrentSpeed := "" }])

/-- The second loop of `getBusEvents`: the error of each fetch is discarded and the returned
record is stored under its own `RoutevariantID`. -/
def storeLines (logic : Logic) : List String → LocMap → Option LocMap
  | [], allBusLocs => some allBusLocs
  | id :: ids, allBusLocs =>
    match logic.fetchBusLocationAPI id with
    | none => none
    | some (busLoc, _) => storeLines logic ids (allBusLocs.set busLoc.RoutevariantID busLoc)

/-- The body of the third loop of `getBusEvents`, applied to `allResult[i]`. -/
def setCurrent (allBusLocs : LocMap) (r : busTrackingInfo) : busTrackingInfo :=
  let rv_id := r.BusStopArrivalInfo.RoutevariantID
  if rv_id = -1 then
    { r with BusCurrentLat := "Bus Latitude Not Detected"
             BusCurrentLong := "Bus Longitude Not Detected"
             BusCurrentSpeed := "Bus Speed Not Detected" }
  else
    { r with BusCurrentLat := (allBusLocs.index rv_id).BusCurrentLat
             BusCurrentLong := (allBusLocs.index rv_id).BusCurrentLong
             BusCurrentSpeed := (allBusLocs.index rv_id).BusCurrentSpeed }

/-- The handler `Server.getBusEvents`, with the two configured id lists as arguments; the
result is the slice passed to the JSON encoder. -/
def Server.getBusEvents (s : Server) (busStopIds busLineIds : List String) :
    Option (List busTrackingInfo) :=
  match appendStops s.logic busStopIds [] with
  | none => none
  | some allResult =>
    match storeLines s.logic busLineIds LocMap.empty with
    | none => none
    | some allBusLocs => some (allResult.map (setCurrent allBusLocs))

/-! ## Auxiliary definitions for the statements -/

/-- The record a stop fetch returned, with or without an error. -/
def returnedStop (logic : Logic) (id : String) : busStopArrivalInfo :=
  match logic.fetchBusTimingAPI id with
  | some (busStop, _) => busStop
  | none => busStopArrivalInfo.zero

/-- The record a line fetch returned, with or without an error. -/
def returnedLine (logic : Logic) (id : String) : busLocationInfo :=
  match logic.fetchBusLocationAPI id with
  | some (busLoc, _) => busLoc
  | none => busLocationInfo.zero

/-- The stop fetch succeeded: it returned with a `nil` error. -/
def fetchedStop (logic : Logic) (id : String) : Bool :=
  match logic.fetchBusTimingAPI id with
  | some (_, none) => true
  | _ => false

/-- The line fetch succeeded: it returned with a `nil` error. -/
def fetchedLine (logic : Logic) (id : String) : Bool :=
  match logic.fetchBusLocationAPI id with
  | some (_, none) => true
  | _ => false

/-- The composite literal `busTrackingInfo{BusStopArrivalInfo: busStop}`. -/
def newTracking (busStop : busStopArrivalInfo) : busTrackingInfo :=
  { BusStopArrivalInfo := busStop, BusCurrentLat := "", BusCurrentLong := "", BusCurrentSpeed := "" }

/-- The table after the second loop has run over `ids`, when no fetch panics. -/
def locTable (logic : Logic) (ids : List String) (m : LocMap) : LocMap :=
  ids.foldl (fun m id => m.set (returnedLine logic id).RoutevariantID (returnedLine logic id)) m

/-- The record of a stop fetch that succeeded, `none` for a fetch that failed or panicked. -/
def fetchedStopRecord (logic : Logic) (id : String) : Option busStopArrivalInfo :=
  match logic.fetchBusTimingAPI id with
  | some (busStop, none) => some busStop
  | _ => none

/-- The record returned by the last line id in `ids` whose fetch returned a record with route
variant `v`, with or without an error; the zero value when there is none. -/
def lastReturned (logic : Logic) (ids : List String) (v : Int) : busLocationInfo :=
  ((ids.map (returnedLine logic)).reverse.find?
    (fun busLoc => decide (busLoc.RoutevariantID = v))).getD busLocationInfo.zero

/-! ## Concrete upstreams used in the examples

A response body stands for itself: the decoders below map a short body name to the payload the
JSON decoder would produce from the real body. -/

/-- The scenario of the specification: stop 378204 has one forecast entry with route variant 7
and line 44478 reports id 7 with one vehicle. In addition stop 378202 has no forecast, stop
378233 is served by route variant 9 which no line reports, line 44480 reports id -1 and line
44481 reports id 7 again with another vehicle. Every other lookup fails in transport. -/
def scenarioRemote : Remote where
  httpGet := fun url =>
    if url = timingURL "378204" then some ⟨200, "stop-7"⟩
    else if url = timingURL "378202" then some ⟨200, "stop-none"⟩
    else if url = timingURL "378233" then some ⟨200, "stop-9"⟩
    else if url = locationURL "44478" then some ⟨200, "line-7"⟩
    else if url = locationURL "44480" then some ⟨200, "line-minus"⟩
    else if url = locationURL "44481" then some ⟨200, "line-7b"⟩
    else none
  decodeStop := fun body =>
    if body = "stop-7" then
      some { Forecast := [⟨120.5, ⟨"44A"⟩, 7, ""⟩], Geometry := [⟨"10.1", "20.2"⟩], Name := "A" }
    else if body = "stop-none" then
      some { Forecast := [], Geometry := [⟨"10.3", "20.4"⟩], Name := "B" }
    else if body = "stop-9" then
      some { Forecast := [⟨30, ⟨"46"⟩, 9, ""⟩, ⟨45, ⟨"44A"⟩, 7, ""⟩],
             Geometry := [⟨"10.5", "20.6"⟩], Name := "C" }
    else none
  decodeLine := fun body =>
    if body = "line-7" then
      some { ID := 7, RouteName := "44", Vehicle := [⟨"1.23", "4.56", "30"⟩] }
    else if body = "line-minus" then
      some { ID := -1, RouteName := "00", Vehicle := [⟨"9.9", "8.8", "70"⟩] }
    else if body = "line-7b" then
      some { ID := 7, RouteName := "44", Vehicle := [⟨"7.7", "6.6", "50"⟩, ⟨"0", "0", "0"⟩] }
    else none

/-- An upstream with failing lookups: stop 378204 is served by route variant 0 and line 44478
reports id 0 with one vehicle; stop 383050 and line 44479 fail in transport. -/
def outageRemote : Remote where
  httpGet := fun url =>
    if url = timingURL "378204" then some ⟨200, "stop-0"⟩
    else if url = locationURL "44478" then some ⟨200, "line-0"⟩
    else none
  decodeStop := fun body =>
    if body = "stop-0" then
      some { Forecast := [⟨60, ⟨"45"⟩, 0, ""⟩], Geometry := [⟨"10.1", "20.2"⟩], Name := "A" }
    else none
  decodeLine := fun body =>
    if body = "line-0" then
      some { ID := 0, RouteName := "45", Vehicle := [⟨"1.23", "4.56", "30"⟩] }
    else none

/-- An upstream that answers
* stop 378204 with status 200 and a payload whose forecast and geometry lists are both empty,
* stop 383049 with status 200 and a payload with one forecast entry and an empty geometry list,
* stop 383050 and line 44478 with status 503 and a well-formed body,
* stop 378202 and line 44479 with status 500 and the same well-formed bodies,
* stop 378233 with status 502 and line 44481 with status 200, both with a body that does not
  decode.
Every other lookup fails in transport. -/
def statusRemote : Remote where
  httpGet := fun url =>
    if url = timingURL "378204" then some ⟨200, "stop-bare"⟩
    else if url = timingURL "383049" then some ⟨200, "stop-nogeo"⟩
    else if url = timingURL "383050" then some ⟨503, "stop-7"⟩
    else if url = timingURL "378202" then some ⟨500, "stop-7"⟩
    else if url = timingURL "378233" then some ⟨502, "garbage"⟩
    else if url = locationURL "44478" then some ⟨503, "line-7"⟩
    else if url = locationURL "44479" then some ⟨500, "line-7"⟩
    else if url = locationURL "44481" then some ⟨200, "garbage"⟩
    else none
  decodeStop := fun body =>
    if body = "stop-bare" then
      some { Forecast := [], Geometry := [], Name := "A" }
    else if body = "stop-nogeo" then
      some { Forecast := [⟨120.5, ⟨"44A"⟩, 7, ""⟩], Geometry := [], Name := "A" }
    else if body = "stop-7" then
      some { Forecast := [⟨120.5, ⟨"44A"⟩, 7, ""⟩], Geometry := [⟨"10.1", "20.2"⟩], Name := "A" }
    else none
  decodeLine := fun body =>
    if body = "line-7" then
      some { ID := 7, RouteName := "44", Vehicle := [⟨"1.23", "4.56", "30"⟩] }
    else none

end BusTiming

namespace BusTiming

/-! ## The two fetch loops -/

theorem appendStops_some (logic : Logic) :
    ∀ (ids : List String) (acc out : List busTrackingInfo),
      appendStops logic ids acc = some out →
      out = acc ++ ids.map (fun id => newTracking (returnedStop logic id)) ∧
      ∀ id ∈ ids, ∃ e, logic.fetchBusTimingAPI id = some (returnedStop logic id, e) := by
  intro ids
  induction ids with
  | nil =>
    intro acc out h
    simp [appendStops] at h
    simp [h]
  | cons id ids ih =>
    intro acc out h
    unfold appendStops at h
    cases hq : logic.fetchBusTimingAPI id with
    | none => rw [hq] at h; simp at h
    | some p =>
      obtain ⟨busStop, e⟩ := p
      rw [hq] at h
      obtain ⟨h1, h2⟩ := ih _ _ h
      have hr : returnedStop logic id = busStop := by simp [returnedStop, hq]
      refine ⟨?_, ?_⟩
      · rw [h1]; simp [newTracking, hr]
      · intro x hx
        rcases List.mem_cons.mp hx with rfl | hx
        · exact ⟨e, by rw [hq, hr]⟩
        · exact h2 x hx

theorem appendStops_total (logic : Logic) :
    ∀ (ids : List String) (acc : List busTrackingInfo),
      (∀ id ∈ ids, (logic.fetchBusTimingAPI id).isSome = true) →
      appendStops logic ids acc =
        some (acc ++ ids.map (fun id => newTracking (returnedStop logic id))) := by
  intro ids
  induction ids with
  | nil => intro acc _; simp [appendStops]
  | cons id ids ih =>
    intro acc h
    have h0 := h id (List.mem_cons_self _ _)
    cases hq : logic.fetchBusTimingAPI id with
    | none => rw [hq] at h0; simp at h0
    | some p =>
      obtain ⟨busStop, e⟩ := p
      have hr : returnedStop logic id = busStop := by simp [returnedStop, hq]
      unfold appendStops
      rw [hq]
      simp only
      rw [ih _ (fun x hx => h x (List.mem_cons_of_mem _ hx))]
      simp [newTracking, hr]

theorem storeLines_some (logic : Logic) :
    ∀ (ids : List String) (m out : LocMap),
      storeLines logic ids m = some out →
      out = locTable logic ids m ∧
      ∀ id ∈ ids, ∃ e, logic.fetchBusLocationAPI id = some (returnedLine logic id, e) := by
  intro ids
  induction ids with
  | nil =>
    intro m out h
    simp [storeLines] at h
    simp [h, locTable]
  | cons id ids ih =>
    intro m out h
    unfold storeLines at h
    cases hq : logic.fetchBusLocationAPI id with
    | none => rw [hq] at h; simp at h
    | some p =>
      obtain ⟨busLoc, e⟩ := p
      rw [hq] at h
      obtain ⟨h1, h2⟩ := ih _ _ h
      have hr : returnedLine logic id = busLoc := by simp [returnedLine, hq]
      refine ⟨?_, ?_⟩
      · rw [h1]; simp [locTable, hr]
      · intro x hx
        rcases List.mem_cons.mp hx with rfl | hx
        · exact ⟨e, by rw [hq, hr]⟩
        · exact h2 x hx

theorem storeLines_total (logic : Logic) :
    ∀ (ids : List String) (m : LocMap),
      (∀ id ∈ ids, (logic.fetchBusLocationAPI id).isSome = true) →
      storeLines logic ids m = some (locTable logic ids m) := by
  intro ids
  induction ids with
  | nil => intro m _; simp [storeLines, locTable]
  | cons id ids ih =>
    intro m h
    have h0 := h id (List.mem_cons_self _ _)
    cases hq : logic.fetchBusLocationAPI id with
    | none => rw [hq] at h0; simp at h0
    | some p =>
      obtain ⟨busLoc, e⟩ := p
      have hr : returnedLine logic id = busLoc := by simp [returnedLine, hq]
      unfold storeLines
      rw [hq]
      simp only
      rw [ih _ (fun x hx => h x (List.mem_cons_of_mem _ hx))]
      simp [locTable, hr]

/-- What `getBusEvents` returns when it returns: one record per stop id, joined against the
table built from every line id. -/
theorem getBusEvents_some (s : Server) (stops lines : List String) (out : List busTrackingInfo)
    (h : s.getBusEvents stops lines = some out) :
    out = stops.map (fun id =>
            setCurrent (locTable s.logic lines LocMap.empty)
              (newTracking (returnedStop s.logic id))) ∧
    (∀ id ∈ stops, ∃ e, s.logic.fetchBusTimingAPI id = some (returnedStop s.logic id, e)) ∧
    (∀ id ∈ lines, ∃ e, s.logic.fetchBusLocationAPI id = some (returnedLine s.logic id, e)) := by
  unfold Server.getBusEvents at h
  cases h1 : appendStops s.logic stops [] with
  | none => rw [h1] at h; simp at h
  | some allResult =>
    rw [h1] at h
    cases h2 : storeLines s.logic lines LocMap.empty with
    | none => rw [h2] at h; simp at h
    | some allBusLocs =>
      rw [h2] at h
      simp only [Option.some.injEq] at h
      obtain ⟨a1, a2⟩ := appendStops_some _ _ _ _ h1
      obtain ⟨b1, b2⟩ := storeLines_some _ _ _ _ h2
      refine ⟨?_, a2, b2⟩
      rw [← h, a1, b1]
      simp [List.map_map, Function.comp_def]

/-- The handler returns whenever no fetch panics. -/
theorem getBusEvents_total (s : Server) (stops lines : List String)
    (hs : ∀ id ∈ stops, (s.logic.fetchBusTimingAPI id).isSome = true)
    (hl : ∀ id ∈ lines, (s.logic.fetchBusLocationAPI id).isSome = true) :
    s.getBusEvents stops lines =
      some (stops.map (fun id =>
        setCurrent (locTable s.logic lines LocMap.empty)
          (newTracking (returnedStop s.logic id)))) := by
  unfold Server.getBusEvents
  rw [appendStops_total _ _ _ hs, storeLines_total _ _ _ hl]
  simp [List.map_map, Function.comp_def]

/-! ## The lookup table -/

theorem LocMap.index_set_self (m : LocMap) (k : Int) (v : busLocationInfo) :
    (m.set k v).index k = v := by
  simp [LocMap.index, LocMap.set]

theorem LocMap.set_other (m : LocMap) (k k' : Int) (v : busLocationInfo) (h : k' ≠ k) :
    (m.set k v) k' = m k' := by
  simp [LocMap.set, h]

/-- A key that no returned record carries keeps its entry. -/
theorem locTable_absent (logic : Logic) (v : Int) :
    ∀ (ids : List String) (m : LocMap),
      (∀ id ∈ ids, (returnedLine logic id).RoutevariantID ≠ v) →
      locTable logic ids m v = m v := by
  intro ids
  induction ids with
  | nil => intro m _; rfl
  | cons id ids ih =>
    intro m h
    have h0 := h id (List.mem_cons_self _ _)
    have h1 := ih (m.set (returnedLine logic id).RoutevariantID (returnedLine logic id))
      (fun x hx => h x (List.mem_cons_of_mem _ hx))
    simp only [locTable, List.foldl_cons] at h1 ⊢
    rw [h1]
    exact LocMap.set_other _ _ _ _ (Ne.symm h0)

theorem locTable_append (logic : Logic) (xs ys : List String) (m : LocMap) :
    locTable logic (xs ++ ys) m = locTable logic ys (locTable logic xs m) := by
  simp [locTable, List.foldl_append]

/-- The last record stored under a key is the one found there. -/
theorem locTable_last (logic : Logic) (pre post : List String) (l : String) (m : LocMap)
    (hpost : ∀ id ∈ post,
      (returnedLine logic id).RoutevariantID ≠ (returnedLine logic l).RoutevariantID) :
    locTable logic (pre ++ l :: post) m (returnedLine logic l).RoutevariantID =
      some (returnedLine logic l) := by
  rw [locTable_append]
  have : locTable logic (l :: post) (locTable logic pre m) =
      locTable logic post ((locTable logic pre m).set
        (returnedLine logic l).RoutevariantID (returnedLine logic l)) := by
    simp [locTable]
  rw [this, locTable_absent logic _ post _ hpost]
  simp [LocMap.set]

/-- Removing ids whose returned record is stored under another key leaves the entry of a key
unchanged. -/
theorem locTable_filter (logic : Logic) (p : String → Bool) (v : Int) :
    ∀ (ids : List String) (m m' : LocMap),
      m v = m' v →
      (∀ id ∈ ids, p id = false → (returnedLine logic id).RoutevariantID ≠ v) →
      locTable logic ids m v = locTable logic (ids.filter p) m' v := by
  intro ids
  induction ids with
  | nil => intro m m' h _; simpa [locTable] using h
  | cons id ids ih =>
    intro m m' h hk
    have hk' : ∀ x ∈ ids, p x = false → (returnedLine logic x).RoutevariantID ≠ v :=
      fun x hx => hk x (List.mem_cons_of_mem _ hx)
    cases hp : p id with
    | true =>
      have e1 : locTable logic (id :: ids) m = locTable logic ids
          (m.set (returnedLine logic id).RoutevariantID (returnedLine logic id)) := by
        simp [locTable]
      have e2 : locTable logic ((id :: ids).filter p) m' = locTable logic (ids.filter p)
          (m'.set (returnedLine logic id).RoutevariantID (returnedLine logic id)) := by
        simp [locTable, List.filter_cons, hp]
      rw [e1, e2]
      apply ih _ _ _ hk'
      simp only [LocMap.set]
      split <;> simp [h]
    | false =>
      have e1 : locTable logic (id :: ids) m = locTable logic ids
          (m.set (returnedLine logic id).RoutevariantID (returnedLine logic id)) := by
        simp [locTable]
      have e2 : locTable logic ((id :: ids).filter p) m' = locTable logic (ids.filter p) m' := by
        simp [List.filter_cons, hp]
      rw [e1, e2]
      apply ih _ _ _ hk'
      rw [LocMap.set_other _ _ _ _ (Ne.symm (hk id (List.mem_cons_self _ _) hp))]
      exact h

/-- The join step reads the table only at the arrival route variant. -/
theorem setCurrent_congr (m m' : LocMap) (r : busTrackingInfo)
    (h : r.BusStopArrivalInfo.RoutevariantID ≠ -1 →
      m r.BusStopArrivalInfo.RoutevariantID = m' r.BusStopArrivalInfo.RoutevariantID) :
    setCurrent m r = setCurrent m' r := by
  unfold setCurrent
  by_cases hv : r.BusStopArrivalInfo.RoutevariantID = -1
  · simp [hv]
  · simp [hv, LocMap.index, h hv]

theorem setCurrent_arrival (m : LocMap) (r : busTrackingInfo) :
    (setCurrent m r).BusStopArrivalInfo = r.BusStopArrivalInfo := by
  unfold setCurrent
  by_cases hv : r.BusStopArrivalInfo.RoutevariantID = -1 <;> simp [hv]

/-- The table after the second loop holds, under each key, the last record returned with that
key. -/
theorem locTable_find (logic : Logic) (v : Int) :
    ∀ (ids : List String) (m : LocMap),
      locTable logic ids m v =
        (((ids.map (returnedLine logic)).reverse.find?
          (fun busLoc => decide (busLoc.RoutevariantID = v))).or (m v)) := by
  intro ids
  induction ids with
  | nil => intro m; simp [locTable]
  | cons id ids ih =>
    intro m
    have e1 : locTable logic (id :: ids) m = locTable logic ids
        (m.set (returnedLine logic id).RoutevariantID (returnedLine logic id)) := by
      simp [locTable]
    rw [e1, ih, List.map_cons, List.reverse_cons, List.find?_append, List.find?_singleton]
    cases (List.find? (fun busLoc => decide (busLoc.RoutevariantID = v))
        (List.map (returnedLine logic) ids).reverse) with
    | some x => simp
    | none =>
      by_cases hk : (returnedLine logic id).RoutevariantID = v
      · simp [LocMap.set, hk]
      · have hk' : ¬ v = (returnedLine logic id).RoutevariantID := fun h => hk h.symm
        simp [LocMap.set, hk, hk']

theorem locTable_index (logic : Logic) (ids : List String) (v : Int) :
    (locTable logic ids LocMap.empty).index v = lastReturned logic ids v := by
  simp [LocMap.index, locTable_find, lastReturned, LocMap.empty]

/-- Two tables give the same joined record exactly when they agree on the three copied
fields at the arrival route variant, unless that variant is -1. -/
theorem setCurrent_eq_iff (m m' : LocMap) (r : busTrackingInfo) :
    setCurrent m' r = setCurrent m r ↔
      (r.BusStopArrivalInfo.RoutevariantID ≠ -1 →
        (m.index r.BusStopArrivalInfo.RoutevariantID).BusCurrentLat =
          (m'.index r.BusStopArrivalInfo.RoutevariantID).BusCurrentLat ∧
        (m.index r.BusStopArrivalInfo.RoutevariantID).BusCurrentLong =
          (m'.index r.BusStopArrivalInfo.RoutevariantID).BusCurrentLong ∧
        (m.index r.BusStopArrivalInfo.RoutevariantID).BusCurrentSpeed =
          (m'.index r.BusStopArrivalInfo.RoutevariantID).BusCurrentSpeed) := by
  unfold setCurrent
  by_cases hv : r.BusStopArrivalInfo.RoutevariantID = -1
  · simp [hv]
  · simp only [hv, if_false, busTrackingInfo.mk.injEq, true_and, ne_eq, not_false_eq_true,
      true_implies]
    constructor
    · rintro ⟨h1, h2, h3⟩
      exact ⟨h1.symm, h2.symm, h3.symm⟩
    · rintro ⟨h1, h2, h3⟩
      exact ⟨h1.symm, h2.symm, h3.symm⟩

theorem setCurrent_unknown (m : LocMap) (r : busTrackingInfo)
    (h : r.BusStopArrivalInfo.RoutevariantID = -1) :
    (setCurrent m r).BusCurrentLat = "Bus Latitude Not Detected" ∧
    (setCurrent m r).BusCurrentLong = "Bus Longitude Not Detected" ∧
    (setCurrent m r).BusCurrentSpeed = "Bus Speed Not Detected" := by
  unfold setCurrent
  simp [h]

theorem setCurrent_known (m : LocMap) (r : busTrackingInfo)
    (h : r.BusStopArrivalInfo.RoutevariantID ≠ -1) :
    (setCurrent m r).BusCurrentLat =
      (m.index r.BusStopArrivalInfo.RoutevariantID).BusCurrentLat ∧
    (setCurrent m r).BusCurrentLong =
      (m.index r.BusStopArrivalInfo.RoutevariantID).BusCurrentLong ∧
    (setCurrent m r).BusCurrentSpeed =
      (m.index r.BusStopArrivalInfo.RoutevariantID).BusCurrentSpeed := by
  unfold setCurrent
  simp [h]

/-- Every output record is the join of the record some stop fetch returned. -/
theorem mem_getBusEvents (s : Server) (stops lines : List String) (out : List busTrackingInfo)
    (h : s.getBusEvents stops lines = some out) (r : busTrackingInfo) (hr : r ∈ out) :
    ∃ id ∈ stops, r = setCurrent (locTable s.logic lines LocMap.empty)
      (newTracking (returnedStop s.logic id)) := by
  obtain ⟨h1, _, _⟩ := getBusEvents_some s stops lines out h
  rw [h1] at hr
  obtain ⟨id, hid, e⟩ := List.mem_map.mp hr
  exact ⟨id, hid, e.symm⟩

/-- A filtered list of records is a sublist of the list of all records. -/
theorem filterMap_sublist_map {α β : Type} (f : α → Option β) (g : α → β)
    (hfg : ∀ a b, f a = some b → b = g a) :
    ∀ l : List α, List.Sublist (l.filterMap f) (l.map g) := by
  intro l
  induction l with
  | nil => simp
  | cons a l ih =>
    cases hfa : f a with
    | none =>
      rw [List.filterMap_cons_none hfa, List.map_cons]
      exact List.Sublist.cons _ ih
    | some b =>
      rw [List.filterMap_cons_some hfa, List.map_cons, hfg a b hfa]
      exact List.Sublist.cons₂ _ ih

theorem fetchedStopRecord_eq (logic : Logic) (id : String) (a : busStopArrivalInfo)
    (h : fetchedStopRecord logic id = some a) : a = returnedStop logic id := by
  unfold fetchedStopRecord at h
  unfold returnedStop
  cases hq : logic.fetchBusTimingAPI id with
  | none => rw [hq] at h; simp at h
  | some p =>
    obtain ⟨b, e⟩ := p
    rw [hq] at h
    cases e with
    | none => simp at h; simp [h]
    | some e => simp at h

/-! ## The bus events view -/

/-- C1: every record of the bus events view whose arrival route variant is -1 carries the
three "Not Detected" literals, whatever the lines report. -/
theorem getBusEvents_unknown_variant_not_detected (s : Server) (stops lines : List String)
    (out : List busTrackingInfo) (h : s.getBusEvents stops lines = some out)
    (r : busTrackingInfo) (hr : r ∈ out) (hv : r.BusStopArrivalInfo.RoutevariantID = -1) :
    r.BusCurrentLat = "Bus Latitude Not Detected" ∧
    r.BusCurrentLong = "Bus Longitude Not Detected" ∧
    r.BusCurrentSpeed = "Bus Speed Not Detected" := by
  obtain ⟨id, _, e⟩ := mem_getBusEvents s stops lines out h r hr
  subst e
  rw [setCurrent_arrival] at hv
  exact setCurrent_unknown _ _ hv

/-- Witness of C1: stop 378202 has no forecast while line 44480 itself reports id -1. -/
theorem getBusEvents_unknown_variant_not_detected_witness :
    (NewServer (NewBusInfoService scenarioRemote)).getBusEvents ["378202"] ["44478", "44480"] =
      some [⟨⟨-1, "Unknown Route Name", -1, ⟨"B", "10.3", "20.4"⟩⟩,
        "Bus Latitude Not Detected", "Bus Longitude Not Detected", "Bus Speed Not Detected"⟩] ∧
    (NewBusInfoService scenarioRemote).fetchBusLocationAPI "44480" =
      some (⟨"00", -1, "9.9", "8.8", "70"⟩, none) ∧
    ((⟨⟨-1, "Unknown Route Name", -1, ⟨"B", "10.3", "20.4"⟩⟩,
        "Bus Latitude Not Detected", "Bus Longitude Not Detected",
        "Bus Speed Not Detected"⟩ : busTrackingInfo).BusCurrentLat = "Bus Latitude Not Detected" ∧
     (⟨⟨-1, "Unknown Route Name", -1, ⟨"B", "10.3", "20.4"⟩⟩,
        "Bus Latitude Not Detected", "Bus Longitude Not Detected",
        "Bus Speed Not Detected"⟩ : busTrackingInfo).BusCurrentLong =
          "Bus Longitude Not Detected" ∧
     (⟨⟨-1, "Unknown Route Name", -1, ⟨"B", "10.3", "20.4"⟩⟩,
        "Bus Latitude Not Detected", "Bus Longitude Not Detected",
        "Bus Speed Not Detected"⟩ : busTrackingInfo).BusCurrentSpeed =
          "Bus Speed Not Detected") :=
  ⟨rfl, rfl,
    getBusEvents_unknown_variant_not_detected (NewServer (NewBusInfoService scenarioRemote))
      ["378202"] ["44478", "44480"] _ rfl _ (List.mem_singleton.mpr rfl) rfl⟩

/-- Counterexample for C2 as stated: line 44478 is the last (and only) line fetched
successfully with route variant 0, but the failed fetch of line 44479 returns the zero record,
which is stored under key 0 afterwards, so the record of stop 378204 does not carry the values
of line 44478. -/
theorem getBusEvents_last_successful_line_refuted :
    ¬ (∀ out, (NewServer (NewBusInfoService outageRemote)).getBusEvents
          ["378204"] ["44478", "44479"] = some out →
        ∀ r ∈ out, r.BusStopArrivalInfo.RoutevariantID ≠ -1 →
        ∀ (pre post : List String) (l : String) (loc : busLocationInfo),
          ["44478", "44479"] = pre ++ l :: post →
          (NewBusInfoService outageRemote).fetchBusLocationAPI l = some (loc, none) →
          loc.RoutevariantID = r.BusStopArrivalInfo.RoutevariantID →
          (∀ l' ∈ post, ∀ loc', (NewBusInfoService outageRemote).fetchBusLocationAPI l' =
              some (loc', none) →
            loc'.RoutevariantID ≠ r.BusStopArrivalInfo.RoutevariantID) →
          r.BusCurrentLat = loc.BusCurrentLat ∧ r.BusCurrentLong = loc.BusCurrentLong ∧
          r.BusCurrentSpeed = loc.BusCurrentSpeed) := by
  intro H
  have h := H [⟨⟨60, "45", 0, ⟨"A", "10.1", "20.2"⟩⟩, "", "", ""⟩] rfl
    ⟨⟨60, "45", 0, ⟨"A", "10.1", "20.2"⟩⟩, "", "", ""⟩ (List.mem_singleton.mpr rfl)
    (by decide) [] ["44479"] "44478" ⟨"45", 0, "1.23", "4.56", "30"⟩ rfl rfl rfl
    (by
      intro l' hl' loc' hf
      rw [List.mem_singleton.mp hl'] at hf
      have hq : (NewBusInfoService outageRemote).fetchBusLocationAPI "44479" =
          some (busLocationInfo.zero, some ⟨400, "No Such ID"⟩) := rfl
      rw [hq] at hf
      simp at hf)
  exact absurd h.1 (by decide)

/-- C2, amended: a record whose arrival route variant `v` is not -1 carries the latitude,
longitude and speed of the record returned by the last line id, in iteration order, whose fetch
returned a record with route variant `v`, whether or not that fetch also returned an error. -/
theorem getBusEvents_last_returned_line_wins (s : Server) (stops lines : List String)
    (out : List busTrackingInfo) (h : s.getBusEvents stops lines = some out)
    (r : busTrackingInfo) (hr : r ∈ out) (hv : r.BusStopArrivalInfo.RoutevariantID ≠ -1)
    (pre post : List String) (l : String) (loc : busLocationInfo) (e : Option errorMessage)
    (hl : lines = pre ++ l :: post)
    (hf : s.logic.fetchBusLocationAPI l = some (loc, e))
    (hk : loc.RoutevariantID = r.BusStopArrivalInfo.RoutevariantID)
    (hpost : ∀ l' ∈ post, ∀ loc' e', s.logic.fetchBusLocationAPI l' = some (loc', e') →
      loc'.RoutevariantID ≠ r.BusStopArrivalInfo.RoutevariantID) :
    r.BusCurrentLat = loc.BusCurrentLat ∧ r.BusCurrentLong = loc.BusCurrentLong ∧
    r.BusCurrentSpeed = loc.BusCurrentSpeed := by
  obtain ⟨_, _, b2⟩ := getBusEvents_some s stops lines out h
  obtain ⟨id, _, er⟩ := mem_getBusEvents s stops lines out h r hr
  have hloc : returnedLine s.logic l = loc := by simp [returnedLine, hf]
  have hpost' : ∀ x ∈ post, (returnedLine s.logic x).RoutevariantID ≠
      (returnedLine s.logic l).RoutevariantID := by
    intro x hx
    obtain ⟨e', he'⟩ := b2 x (by rw [hl]; simp [hx])
    rw [hloc, hk]
    exact hpost x hx _ _ he'
  have ht := locTable_last s.logic pre post l LocMap.empty hpost'
  rw [hloc, hk, ← hl] at ht
  have hrv : (newTracking (returnedStop s.logic id)).BusStopArrivalInfo.RoutevariantID =
      r.BusStopArrivalInfo.RoutevariantID := by
    rw [er, setCurrent_arrival]
  have hv' : (newTracking (returnedStop s.logic id)).BusStopArrivalInfo.RoutevariantID ≠ -1 := by
    rw [hrv]; exact hv
  have hc := setCurrent_known (locTable s.logic lines LocMap.empty) _ hv'
  rw [hrv, ← er] at hc
  simpa [LocMap.index, ht] using hc

/-- Witness of C2: the scenario of the specification, and three lines of which 44481 and
then 44478 report route variant 7 and the last one, 44480, reports -1: line 44478 wins. -/
theorem getBusEvents_last_returned_line_wins_witness :
    (NewServer (NewBusInfoService scenarioRemote)).getBusEvents ["378204"] ["44478"] =
      some [⟨⟨120.5, "44A", 7, ⟨"A", "10.1", "20.2"⟩⟩, "1.23", "4.56", "30"⟩] ∧
    (NewServer (NewBusInfoService scenarioRemote)).getBusEvents ["378204"] ["44478", "44481"] =
      some [⟨⟨120.5, "44A", 7, ⟨"A", "10.1", "20.2"⟩⟩, "7.7", "6.6", "50"⟩] ∧
    (NewServer (NewBusInfoService scenarioRemote)).getBusEvents ["378204"]
        ["44481", "44478", "44480"] =
      some [⟨⟨120.5, "44A", 7, ⟨"A", "10.1", "20.2"⟩⟩, "1.23", "4.56", "30"⟩] ∧
    ((⟨⟨120.5, "44A", 7, ⟨"A", "10.1", "20.2"⟩⟩, "1.23", "4.56", "30"⟩ :
        busTrackingInfo).BusCurrentLat = (⟨"44", 7, "1.23", "4.56", "30"⟩ :
        busLocationInfo).BusCurrentLat ∧
     (⟨⟨120.5, "44A", 7, ⟨"A", "10.1", "20.2"⟩⟩, "1.23", "4.56", "30"⟩ :
        busTrackingInfo).BusCurrentLong = (⟨"44", 7, "1.23", "4.56", "30"⟩ :
        busLocationInfo).BusCurrentLong ∧
     (⟨⟨120.5, "44A", 7, ⟨"A", "10.1", "20.2"⟩⟩, "1.23", "4.56", "30"⟩ :
        busTrackingInfo).BusCurrentSpeed = (⟨"44", 7, "1.23", "4.56", "30"⟩ :
        busLocationInfo).BusCurrentSpeed) :=
  ⟨rfl, rfl, rfl,
    getBusEvents_last_returned_line_wins (NewServer (NewBusInfoService scenarioRemote))
      ["378204"] ["44481", "44478", "44480"] _ rfl _ (List.mem_singleton.mpr rfl) (by decide)
      ["44481"] ["44480"] "44478" ⟨"44", 7, "1.23", "4.56", "30"⟩ none rfl rfl rfl
      (by
        intro l' hl' loc' e' hf
        rw [List.mem_singleton.mp hl'] at hf
        have hq : (NewServer (NewBusInfoService scenarioRemote)).logic.fetchBusLocationAPI
            "44480" = some (⟨"00", -1, "9.9", "8.8", "70"⟩, none) := rfl
        rw [hq] at hf
        simp only [Option.some.injEq, Prod.mk.injEq] at hf
        rw [← hf.1]
        decide)⟩

/-- Counterexample for C3 as stated: the fetch of stop 383050 fails, yet the view has two
records, one of them for the failed stop, while one stop was fetched successfully. -/
theorem getBusEvents_failed_stop_not_skipped :
    ¬ (∀ out, (NewServer (NewBusInfoService outageRemote)).getBusEvents
          ["378204", "383050"] [] = some out →
        out.length =
          (["378204", "383050"].filter (fetchedStop (NewBusInfoService outageRemote))).length) := by
  intro H
  have h := H [⟨⟨60, "45", 0, ⟨"A", "10.1", "20.2"⟩⟩, "", "", ""⟩,
    ⟨busStopArrivalInfo.zero, "", "", ""⟩] rfl
  have hc : (["378204", "383050"].filter
      (fetchedStop (NewBusInfoService outageRemote))).length = 1 := rfl
  rw [hc] at h
  exact absurd h (by decide)

/-- C3, amended: the view has exactly one record per stop id, in stop order, whether or not
the fetch of that stop succeeded; the arrival part of each record is the record the fetch
returned (next to its error, if any). -/
theorem getBusEvents_one_record_per_stop (s : Server) (stops lines : List String)
    (out : List busTrackingInfo) (h : s.getBusEvents stops lines = some out) :
    out.length = stops.length ∧
    List.Forall₂ (fun id r => ∃ e, s.logic.fetchBusTimingAPI id = some (r.BusStopArrivalInfo, e))
      stops out := by
  obtain ⟨h1, a2, _⟩ := getBusEvents_some s stops lines out h
  refine ⟨by rw [h1]; simp, ?_⟩
  rw [h1, List.forall₂_map_right_iff, List.forall₂_same]
  intro id hid
  obtain ⟨e, he⟩ := a2 id hid
  exact ⟨e, by rw [setCurrent_arrival]; exact he⟩

/-- Witness of C3: the failed stop 383050 contributes the zero record. -/
theorem getBusEvents_one_record_per_stop_witness :
    (NewServer (NewBusInfoService outageRemote)).getBusEvents ["378204", "383050"] [] =
      some [⟨⟨60, "45", 0, ⟨"A", "10.1", "20.2"⟩⟩, "", "", ""⟩,
        ⟨busStopArrivalInfo.zero, "", "", ""⟩] ∧
    (NewBusInfoService outageRemote).fetchBusTimingAPI "383050" =
      some (busStopArrivalInfo.zero, some ⟨400, "No Such ID"⟩) ∧
    ([⟨⟨60, "45", 0, ⟨"A", "10.1", "20.2"⟩⟩, "", "", ""⟩,
        ⟨busStopArrivalInfo.zero, "", "", ""⟩] : List busTrackingInfo).length =
      ["378204", "383050"].length ∧
    List.Forall₂ (fun (id : String) (r : busTrackingInfo) =>
        ∃ e, (NewServer (NewBusInfoService outageRemote)).logic.fetchBusTimingAPI id =
          some (r.BusStopArrivalInfo, e))
      ["378204", "383050"]
      [⟨⟨60, "45", 0, ⟨"A", "10.1", "20.2"⟩⟩, "", "", ""⟩,
        ⟨busStopArrivalInfo.zero, "", "", ""⟩] :=
  ⟨rfl, rfl,
    getBusEvents_one_record_per_stop (NewServer (NewBusInfoService outageRemote))
      ["378204", "383050"] [] _ rfl⟩

/-- Counterexample for C4 as stated: the failed fetch of line 44479 returns the zero record,
which replaces the entry line 44478 stored under key 0, so the view differs from the view
computed without line 44479. -/
theorem getBusEvents_failed_line_stored :
    ¬ ((NewServer (NewBusInfoService outageRemote)).getBusEvents ["378204"] ["44478", "44479"] =
       (NewServer (NewBusInfoService outageRemote)).getBusEvents ["378204"]
         (["44478", "44479"].filter (fetchedLine (NewBusInfoService outageRemote)))) := by
  intro H
  have h1 : (NewServer (NewBusInfoService outageRemote)).getBusEvents ["378204"]
      ["44478", "44479"] = some [⟨⟨60, "45", 0, ⟨"A", "10.1", "20.2"⟩⟩, "", "", ""⟩] := rfl
  have h2 : (NewServer (NewBusInfoService outageRemote)).getBusEvents ["378204"]
      (["44478", "44479"].filter (fetchedLine (NewBusInfoService outageRemote))) =
      some [⟨⟨60, "45", 0, ⟨"A", "10.1", "20.2"⟩⟩, "1.23", "4.56", "30"⟩] := rfl
  rw [h1, h2] at H
  have h3 := congrArg (fun o => o.map (List.map busTrackingInfo.BusCurrentLat)) H
  exact absurd h3 (by decide)

/-- C4, amended: a line id whose fetch fails is not skipped: the record returned next to the
error is stored under its own route variant id like that of a successful fetch. Every output
record whose arrival route variant `v` is not -1 carries the latitude, longitude and speed of
the last record returned with route variant `v` by any line fetch, failed or not (the zero
value when there is none); in particular it carries those of a failed fetch that was the last
to return `v`. The view equals the view computed with the failing line ids removed exactly
when, for every such output record, these three values are also those of the last record
returned with `v` by a successful line fetch (the zero value when there is none). -/
theorem getBusEvents_without_failed_lines (s : Server) (stops lines : List String)
    (out : List busTrackingInfo) (h : s.getBusEvents stops lines = some out) :
    (∀ r ∈ out, r.BusStopArrivalInfo.RoutevariantID ≠ -1 →
      r.BusCurrentLat =
        (lastReturned s.logic lines r.BusStopArrivalInfo.RoutevariantID).BusCurrentLat ∧
      r.BusCurrentLong =
        (lastReturned s.logic lines r.BusStopArrivalInfo.RoutevariantID).BusCurrentLong ∧
      r.BusCurrentSpeed =
        (lastReturned s.logic lines r.BusStopArrivalInfo.RoutevariantID).BusCurrentSpeed) ∧
    (∀ (pre post : List String) (l : String) (loc : busLocationInfo) (e : errorMessage),
      lines = pre ++ l :: post →
      s.logic.fetchBusLocationAPI l = some (loc, some e) →
      (∀ l' ∈ post, ∀ loc' e', s.logic.fetchBusLocationAPI l' = some (loc', e') →
        loc'.RoutevariantID ≠ loc.RoutevariantID) →
      lastReturned s.logic lines loc.RoutevariantID = loc) ∧
    (s.getBusEvents stops (lines.filter (fetchedLine s.logic)) = some out ↔
      ∀ r ∈ out, r.BusStopArrivalInfo.RoutevariantID ≠ -1 →
        (lastReturned s.logic lines r.BusStopArrivalInfo.RoutevariantID).BusCurrentLat =
          (lastReturned s.logic (lines.filter (fetchedLine s.logic))
            r.BusStopArrivalInfo.RoutevariantID).BusCurrentLat ∧
        (lastReturned s.logic lines r.BusStopArrivalInfo.RoutevariantID).BusCurrentLong =
          (lastReturned s.logic (lines.filter (fetchedLine s.logic))
            r.BusStopArrivalInfo.RoutevariantID).BusCurrentLong ∧
        (lastReturned s.logic lines r.BusStopArrivalInfo.RoutevariantID).BusCurrentSpeed =
          (lastReturned s.logic (lines.filter (fetchedLine s.logic))
            r.BusStopArrivalInfo.RoutevariantID).BusCurrentSpeed) := by
  obtain ⟨h1, a2, b2⟩ := getBusEvents_some s stops lines out h
  have hs : ∀ id ∈ stops, (s.logic.fetchBusTimingAPI id).isSome = true := by
    intro id hid
    obtain ⟨e, he⟩ := a2 id hid
    simp [he]
  have hl : ∀ id ∈ lines.filter (fetchedLine s.logic),
      (s.logic.fetchBusLocationAPI id).isSome = true := by
    intro id hid
    obtain ⟨e, he⟩ := b2 id (List.mem_filter.mp hid).1
    simp [he]
  refine ⟨?_, ?_, ?_⟩
  · intro r hr hv
    obtain ⟨id, _, er⟩ := mem_getBusEvents s stops lines out h r hr
    have hrv : (newTracking (returnedStop s.logic id)).BusStopArrivalInfo.RoutevariantID =
        r.BusStopArrivalInfo.RoutevariantID := by
      rw [er, setCurrent_arrival]
    have hc := setCurrent_known (locTable s.logic lines LocMap.empty) _ (by rw [hrv]; exact hv)
    rw [hrv, ← er, locTable_index] at hc
    exact hc
  · intro pre post l loc e hlines hf hpost
    have hloc : returnedLine s.logic l = loc := by simp [returnedLine, hf]
    have hpost' : ∀ x ∈ post, (returnedLine s.logic x).RoutevariantID ≠
        (returnedLine s.logic l).RoutevariantID := by
      intro x hx
      obtain ⟨e', he'⟩ := b2 x (by rw [hlines]; simp [hx])
      rw [hloc]
      exact hpost x hx _ _ he'
    have ht := locTable_last s.logic pre post l LocMap.empty hpost'
    rw [hloc, ← hlines] at ht
    rw [← locTable_index]
    simp [LocMap.index, ht]
  · rw [getBusEvents_total s stops _ hs hl]
    simp only [Option.some.injEq]
    constructor
    · intro H r hr hv
      rw [h1] at hr
      obtain ⟨id, hid, er⟩ := List.mem_map.mp hr
      have hH : List.map (fun id => setCurrent
            (locTable s.logic (lines.filter (fetchedLine s.logic)) LocMap.empty)
            (newTracking (returnedStop s.logic id))) stops =
          List.map (fun id => setCurrent (locTable s.logic lines LocMap.empty)
            (newTracking (returnedStop s.logic id))) stops := by
        rw [H, ← h1]
      have hp := (List.map_inj_left.mp hH) id hid
      have hrv : (newTracking (returnedStop s.logic id)).BusStopArrivalInfo.RoutevariantID =
          r.BusStopArrivalInfo.RoutevariantID := by
        rw [← er, setCurrent_arrival]
      have hq := (setCurrent_eq_iff _ _ _).mp hp (by rw [hrv]; exact hv)
      rw [hrv, locTable_index, locTable_index] at hq
      exact hq
    · intro H
      rw [h1]
      apply List.map_inj_left.mpr
      intro id hid
      apply (setCurrent_eq_iff _ _ _).mpr
      intro hv
      have hmem : setCurrent (locTable s.logic lines LocMap.empty)
          (newTracking (returnedStop s.logic id)) ∈ out := by
        rw [h1]
        exact List.mem_map.mpr ⟨id, hid, rfl⟩
      have hq := H _ hmem (by rw [setCurrent_arrival]; exact hv)
      rw [setCurrent_arrival] at hq
      rw [locTable_index, locTable_index]
      exact hq

/-- Witness of C4 on the upstream with failing lookups. First run: stop 378204 (route variant
0) with the lines 44478 (id 0) and 44479 (failed, zero record): the record carries the empty
strings of the failed fetch. Second run: the failed stop 383050 with the failed line 44479
alone: the view is the same without that line. -/
theorem getBusEvents_without_failed_lines_witness :
    (NewServer (NewBusInfoService outageRemote)).getBusEvents ["378204"] ["44478", "44479"] =
      some [⟨⟨60, "45", 0, ⟨"A", "10.1", "20.2"⟩⟩, "", "", ""⟩] ∧
    lastReturned (NewBusInfoService outageRemote) ["44478", "44479"] 0 = busLocationInfo.zero ∧
    (⟨⟨60, "45", 0, ⟨"A", "10.1", "20.2"⟩⟩, "", "", ""⟩ : busTrackingInfo).BusCurrentLat =
      (lastReturned (NewServer (NewBusInfoService outageRemote)).logic ["44478", "44479"]
        (⟨⟨60, "45", 0, ⟨"A", "10.1", "20.2"⟩⟩, "", "", ""⟩ :
          busTrackingInfo).BusStopArrivalInfo.RoutevariantID).BusCurrentLat ∧
    (NewServer (NewBusInfoService outageRemote)).getBusEvents ["383050"] ["44479"] =
      some [⟨busStopArrivalInfo.zero, "", "", ""⟩] ∧
    ["44479"].filter (fetchedLine (NewBusInfoService outageRemote)) = [] ∧
    (NewServer (NewBusInfoService outageRemote)).getBusEvents ["383050"]
        (["44479"].filter (fetchedLine (NewServer (NewBusInfoService outageRemote)).logic)) =
      some [⟨busStopArrivalInfo.zero, "", "", ""⟩] :=
  ⟨rfl, rfl,
    ((getBusEvents_without_failed_lines (NewServer (NewBusInfoService outageRemote))
      ["378204"] ["44478", "44479"] _ rfl).1 _ (List.mem_singleton.mpr rfl) (by decide)).1,
    rfl, rfl,
    (getBusEvents_without_failed_lines (NewServer (NewBusInfoService outageRemote))
      ["383050"] ["44479"] _ rfl).2.2.mpr (by
        intro r hr _
        rw [List.mem_singleton.mp hr]
        exact ⟨rfl, rfl, rfl⟩)⟩

/-- C5: a record whose arrival route variant `v` is not -1, when no line fetch returned a
record with route variant `v`, carries the empty string in its three current fields. -/
theorem getBusEvents_unmatched_variant_zero (s : Server) (stops lines : List String)
    (out : List busTrackingInfo) (h : s.getBusEvents stops lines = some out)
    (r : busTrackingInfo) (hr : r ∈ out) (hv : r.BusStopArrivalInfo.RoutevariantID ≠ -1)
    (hno : ∀ l ∈ lines, ∀ loc e, s.logic.fetchBusLocationAPI l = some (loc, e) →
      loc.RoutevariantID ≠ r.BusStopArrivalInfo.RoutevariantID) :
    r.BusCurrentLat = "" ∧ r.BusCurrentLong = "" ∧ r.BusCurrentSpeed = "" := by
  obtain ⟨_, _, b2⟩ := getBusEvents_some s stops lines out h
  obtain ⟨id, _, er⟩ := mem_getBusEvents s stops lines out h r hr
  have hrv : (newTracking (returnedStop s.logic id)).BusStopArrivalInfo.RoutevariantID =
      r.BusStopArrivalInfo.RoutevariantID := by
    rw [er, setCurrent_arrival]
  have hv' : (newTracking (returnedStop s.logic id)).BusStopArrivalInfo.RoutevariantID ≠ -1 := by
    rw [hrv]; exact hv
  have ht : locTable s.logic lines LocMap.empty r.BusStopArrivalInfo.RoutevariantID = none := by
    rw [locTable_absent s.logic _ lines LocMap.empty]
    · rfl
    · intro l hl
      obtain ⟨e, he⟩ := b2 l hl
      exact hno l hl _ _ he
  have hc := setCurrent_known (locTable s.logic lines LocMap.empty) _ hv'
  rw [hrv, ← er] at hc
  simpa [LocMap.index, ht, busLocationInfo.zero] using hc

/-- Witness of C5: stop 378233 is served by route variant 9, the lines report 7 and -1. -/
theorem getBusEvents_unmatched_variant_zero_witness :
    (NewServer (NewBusInfoService scenarioRemote)).getBusEvents ["378233"] ["44478", "44480"] =
      some [⟨⟨30, "46", 9, ⟨"C", "10.5", "20.6"⟩⟩, "", "", ""⟩] ∧
    ((⟨⟨30, "46", 9, ⟨"C", "10.5", "20.6"⟩⟩, "", "", ""⟩ : busTrackingInfo).BusCurrentLat = "" ∧
     (⟨⟨30, "46", 9, ⟨"C", "10.5", "20.6"⟩⟩, "", "", ""⟩ : busTrackingInfo).BusCurrentLong = "" ∧
     (⟨⟨30, "46", 9, ⟨"C", "10.5", "20.6"⟩⟩, "", "", ""⟩ : busTrackingInfo).BusCurrentSpeed = "") :=
  ⟨rfl,
    getBusEvents_unmatched_variant_zero (NewServer (NewBusInfoService scenarioRemote))
      ["378233"] ["44478", "44480"] _ rfl _ (List.mem_singleton.mpr rfl) (by decide)
      (by
        intro l hl loc e hf
        rcases List.mem_cons.mp hl with rfl | hl
        · have hq : (NewServer (NewBusInfoService scenarioRemote)).logic.fetchBusLocationAPI
              "44478" = some (⟨"44", 7, "1.23", "4.56", "30"⟩, none) := rfl
          rw [hq] at hf
          simp only [Option.some.injEq, Prod.mk.injEq] at hf
          rw [← hf.1]
          decide
        · rw [List.mem_singleton.mp hl] at hf
          have hq : (NewServer (NewBusInfoService scenarioRemote)).logic.fetchBusLocationAPI
              "44480" = some (⟨"00", -1, "9.9", "8.8", "70"⟩, none) := rfl
          rw [hq] at hf
          simp only [Option.some.injEq, Prod.mk.injEq] at hf
          rw [← hf.1]
          decide)⟩

/-- C6: the view is no longer than the stop id list, and the records of the stops fetched
successfully appear in it unchanged and in the order of their stop ids. -/
theorem getBusEvents_length_and_order (s : Server) (stops lines : List String)
    (out : List busTrackingInfo) (h : s.getBusEvents stops lines = some out) :
    out.length ≤ stops.length ∧
    List.Sublist (stops.filterMap (fetchedStopRecord s.logic))
      (out.map busTrackingInfo.BusStopArrivalInfo) := by
  obtain ⟨h1, _, _⟩ := getBusEvents_some s stops lines out h
  refine ⟨by rw [h1]; simp, ?_⟩
  have hm : out.map busTrackingInfo.BusStopArrivalInfo = stops.map (returnedStop s.logic) := by
    rw [h1, List.map_map]
    apply List.map_congr_left
    intro id _
    simp [Function.comp, setCurrent_arrival, newTracking]
  rw [hm]
  exact filterMap_sublist_map _ _ (fetchedStopRecord_eq s.logic) stops

/-- Witness of C6: three stops, the second of which fails. -/
theorem getBusEvents_length_and_order_witness :
    (NewServer (NewBusInfoService scenarioRemote)).getBusEvents
        ["378204", "383050", "378202"] ["44478"] =
      some [⟨⟨120.5, "44A", 7, ⟨"A", "10.1", "20.2"⟩⟩, "1.23", "4.56", "30"⟩,
        ⟨busStopArrivalInfo.zero, "", "", ""⟩,
        ⟨⟨-1, "Unknown Route Name", -1, ⟨"B", "10.3", "20.4"⟩⟩,
          "Bus Latitude Not Detected", "Bus Longitude Not Detected", "Bus Speed Not Detected"⟩] ∧
    ["378204", "383050", "378202"].filterMap
        (fetchedStopRecord (NewBusInfoService scenarioRemote)) =
      [⟨120.5, "44A", 7, ⟨"A", "10.1", "20.2"⟩⟩,
       ⟨-1, "Unknown Route Name", -1, ⟨"B", "10.3", "20.4"⟩⟩] ∧
    (([⟨⟨120.5, "44A", 7, ⟨"A", "10.1", "20.2"⟩⟩, "1.23", "4.56", "30"⟩,
        ⟨busStopArrivalInfo.zero, "", "", ""⟩,
        ⟨⟨-1, "Unknown Route Name", -1, ⟨"B", "10.3", "20.4"⟩⟩,
          "Bus Latitude Not Detected", "Bus Longitude Not Detected",
          "Bus Speed Not Detected"⟩] : List busTrackingInfo).length ≤
      ["378204", "383050", "378202"].length ∧
     List.Sublist
      (["378204", "383050", "378202"].filterMap
        (fetchedStopRecord (NewServer (NewBusInfoService scenarioRemote)).logic))
      (([⟨⟨120.5, "44A", 7, ⟨"A", "10.1", "20.2"⟩⟩, "1.23", "4.56", "30"⟩,
        ⟨busStopArrivalInfo.zero, "", "", ""⟩,
        ⟨⟨-1, "Unknown Route Name", -1, ⟨"B", "10.3", "20.4"⟩⟩,
          "Bus Latitude Not Detected", "Bus Longitude Not Detected",
          "Bus Speed Not Detected"⟩] : List busTrackingInfo).map
        busTrackingInfo.BusStopArrivalInfo)) :=
  ⟨rfl, rfl,
    getBusEvents_length_and_order (NewServer (NewBusInfoService scenarioRemote))
      ["378204", "383050", "378202"] ["44478"] _ rfl⟩

/-! ## The upstream client -/

/-- What the arrival lookup does with a decoded payload: it panics when the geometry list is
empty and otherwise builds the record from the first geometry entry and the extracted forecast
values. -/
theorem fetchBusTimingAPI_decoded (net : Remote) (id : String) (resp : Response)
    (result : busStopJSON) (hg : net.httpGet (timingURL id) = some resp)
    (hs : resp.StatusCode ≠ 500) (hd : net.decodeStop resp.Body = some result) :
    busInfoService.fetchBusTimingAPI net id =
      (result.Geometry[0]?).map (fun g =>
        (({ EstimatedRemainingTime := (extractJSONForecastValues result).1
            RouteName := (extractJSONForecastValues result).2.1
            RoutevariantID := (extractJSONForecastValues result).2.2
            BusStopInfo := { Name := result.Name, Lat := g.Lat, Lon := g.Lon } } :
            busStopArrivalInfo), (none : Option errorMessage))) := by
  unfold busInfoService.fetchBusTimingAPI
  rw [hg]
  simp only [hs, if_false, hd]
  cases result.Geometry[0]? <;> rfl

/-- With an empty forecast list and a non-empty geometry list the arrival lookup returns the
"no forecast" record and no error. -/
theorem fetchBusTimingAPI_no_forecast (net : Remote) (id : String) (resp : Response)
    (result : busStopJSON) (g : busStopJSON.GeometryEntry) (gs : List busStopJSON.GeometryEntry)
    (hg : net.httpGet (timingURL id) = some resp) (hs : resp.StatusCode ≠ 500)
    (hd : net.decodeStop resp.Body = some result) (hf : result.Forecast = [])
    (hgeo : result.Geometry = g :: gs) :
    busInfoService.fetchBusTimingAPI net id =
      some (⟨-1, "Unknown Route Name", -1, ⟨result.Name, g.Lat, g.Lon⟩⟩, none) := by
  rw [fetchBusTimingAPI_decoded net id resp result hg hs hd]
  simp [hgeo, extractJSONForecastValues, hf]

/-- C7, the failing input: stop 378204 answers with status 200 and a body that decodes to a
payload whose forecast and geometry lists are both empty. The forecast values that would be
extracted are the "no forecast" values, but the lookup panics on `result.Geometry[0]` before
it extracts them. -/
theorem fetchBusTimingAPI_empty_geometry_panics :
    statusRemote.httpGet (timingURL "378204") = some ⟨200, "stop-bare"⟩ ∧
    statusRemote.decodeStop "stop-bare" = some { Forecast := [], Geometry := [], Name := "A" } ∧
    extractJSONForecastValues { Forecast := [], Geometry := [], Name := "A" } =
      (-1, "Unknown Route Name", -1) ∧
    busInfoService.fetchBusTimingAPI statusRemote "378204" = none :=
  ⟨rfl, rfl, rfl, rfl⟩

/-- C8: for a decoded line payload the location lookup returns, without an error, a record
with the route name and id of the payload, and with the "Not Detected" literals when the
vehicle list is empty, otherwise the latitude, longitude and speed of the first vehicle. -/
theorem fetchBusLocationAPI_decoded (net : Remote) (id : String) (resp : Response)
    (result : busLineJSON) (hg : net.httpGet (locationURL id) = some resp)
    (hs : resp.StatusCode ≠ 500) (hd : net.decodeLine resp.Body = some result) :
    ∃ busLocation, busInfoService.fetchBusLocationAPI net id = (busLocation, none) ∧
      busLocation.RouteName = result.RouteName ∧
      busLocation.RoutevariantID = result.ID ∧
      (result.Vehicle = [] →
        busLocation.BusCurrentLat = "Bus Latitude Not Detected" ∧
        busLocation.BusCurrentLong = "Bus Longitude Not Detected" ∧
        busLocation.BusCurrentSpeed = "Bus Speed Not Detected") ∧
      (∀ v rest, result.Vehicle = v :: rest →
        busLocation.BusCurrentLat = v.Lat ∧ busLocation.BusCurrentLong = v.Lon ∧
        busLocation.BusCurrentSpeed = v.Speed) := by
  unfold busInfoService.fetchBusLocationAPI
  rw [hg]
  simp only [hs, if_false, hd]
  refine ⟨_, rfl, rfl, rfl, ?_, ?_⟩
  · intro hv
    simp [extractJSONVehicleValues, hv]
  · intro v rest hv
    simp [extractJSONVehicleValues, hv]

/-- Witness of C8: line 44481 lists two vehicles, the first one is reported. -/
theorem fetchBusLocationAPI_decoded_witness :
    busInfoService.fetchBusLocationAPI scenarioRemote "44481" =
      (⟨"44", 7, "7.7", "6.6", "50"⟩, none) ∧
    ∃ busLocation, busInfoService.fetchBusLocationAPI scenarioRemote "44481" =
        (busLocation, none) ∧
      busLocation.RouteName = "44" ∧
      busLocation.RoutevariantID = 7 ∧
      (([⟨"7.7", "6.6", "50"⟩, ⟨"0", "0", "0"⟩] : List busLineJSON.VehicleEntry) = [] →
        busLocation.BusCurrentLat = "Bus Latitude Not Detected" ∧
        busLocation.BusCurrentLong = "Bus Longitude Not Detected" ∧
        busLocation.BusCurrentSpeed = "Bus Speed Not Detected") ∧
      (∀ v rest, ([⟨"7.7", "6.6", "50"⟩, ⟨"0", "0", "0"⟩] : List busLineJSON.VehicleEntry) =
          v :: rest →
        busLocation.BusCurrentLat = v.Lat ∧ busLocation.BusCurrentLong = v.Lon ∧
        busLocation.BusCurrentSpeed = v.Speed) :=
  ⟨rfl,
    fetchBusLocationAPI_decoded scenarioRemote "44481" ⟨200, "line-7b"⟩
      { ID := 7, RouteName := "44", Vehicle := [⟨"7.7", "6.6", "50"⟩, ⟨"0", "0", "0"⟩] }
      rfl (by decide) rfl⟩

/-- For a decoded stop payload with a non-empty forecast list the extracted values are those
of the first forecast entry, whatever the later entries are, and the arrival lookup puts them
in the record it builds from the first geometry entry; it builds none when the geometry list
is empty. -/
theorem fetchBusTimingAPI_forecast_values (net : Remote) (id : String) (resp : Response)
    (result : busStopJSON) (f : busStopJSON.ForecastEntry)
    (rest : List busStopJSON.ForecastEntry)
    (hg : net.httpGet (timingURL id) = some resp) (hs : resp.StatusCode ≠ 500)
    (hd : net.decodeStop resp.Body = some result) (hf : result.Forecast = f :: rest) :
    extractJSONForecastValues result = (f.EstimatedRemainingTime, f.Route.ShortName, f.RvID) ∧
    busInfoService.fetchBusTimingAPI net id =
      (result.Geometry[0]?).map (fun g =>
        (({ EstimatedRemainingTime := f.EstimatedRemainingTime
            RouteName := f.Route.ShortName
            RoutevariantID := f.RvID
            BusStopInfo := { Name := result.Name, Lat := g.Lat, Lon := g.Lon } } :
            busStopArrivalInfo), (none : Option errorMessage))) := by
  have he : extractJSONForecastValues result =
      (f.EstimatedRemainingTime, f.Route.ShortName, f.RvID) := by
    simp [extractJSONForecastValues, hf]
  refine ⟨he, ?_⟩
  rw [fetchBusTimingAPI_decoded net id resp result hg hs hd, he]

/-- C9, the failing input: stop 383049 answers with status 200 and a body that decodes to a
payload with one forecast entry and an empty geometry list. The values that would be extracted
are those of the first forecast entry, but the lookup panics on `result.Geometry[0]` before it
extracts them, so no record carries them; the same payload with a geometry entry (stop 383050)
yields the record. -/
theorem fetchBusTimingAPI_forecast_empty_geometry_panics :
    statusRemote.httpGet (timingURL "383049") = some ⟨200, "stop-nogeo"⟩ ∧
    statusRemote.decodeStop "stop-nogeo" =
      some { Forecast := [⟨120.5, ⟨"44A"⟩, 7, ""⟩], Geometry := [], Name := "A" } ∧
    extractJSONForecastValues
      { Forecast := [⟨120.5, ⟨"44A"⟩, 7, ""⟩], Geometry := [], Name := "A" } =
      (120.5, "44A", 7) ∧
    busInfoService.fetchBusTimingAPI statusRemote "383049" = none ∧
    busInfoService.fetchBusTimingAPI statusRemote "383050" =
      some (⟨120.5, "44A", 7, ⟨"A", "10.1", "20.2"⟩⟩, none) :=
  ⟨rfl, rfl, rfl, rfl, rfl⟩

/-- Counterexample for C10 as stated: stop 383050 and line 44478 answer with the server-error
status 503 and a well-formed body; both lookups decode the body and return a record without an
error. -/
theorem fetch_status_503_decoded :
    ¬ (∀ resp, statusRemote.httpGet (timingURL "383050") = some resp →
        500 ≤ resp.StatusCode → resp.StatusCode ≤ 599 →
        ∃ busStop e, busInfoService.fetchBusTimingAPI statusRemote "383050" =
          some (busStop, some e)) ∧
    ¬ (∀ resp, statusRemote.httpGet (locationURL "44478") = some resp →
        500 ≤ resp.StatusCode → resp.StatusCode ≤ 599 →
        ∃ busLoc e, busInfoService.fetchBusLocationAPI statusRemote "44478" =
          (busLoc, some e)) := by
  constructor
  · intro H
    obtain ⟨busStop, e, he⟩ := H ⟨503, "stop-7"⟩ rfl (by decide) (by decide)
    have hq : busInfoService.fetchBusTimingAPI statusRemote "383050" =
        some (⟨120.5, "44A", 7, ⟨"A", "10.1", "20.2"⟩⟩, none) := rfl
    rw [hq] at he
    simp at he
  · intro H
    obtain ⟨busLoc, e, he⟩ := H ⟨503, "line-7"⟩ rfl (by decide) (by decide)
    have hq : busInfoService.fetchBusLocationAPI statusRemote "44478" =
        (⟨"44", 7, "1.23", "4.56", "30"⟩, none) := rfl
    rw [hq] at he
    simp at he

/-- C10, amended: when the remote call cannot complete or the response status is exactly 500,
both lookups return the error "No Such ID" next to the zero record, whatever the body and the
decoder are. A response with any other status, 501 to 599 included, has its body decoded: when
decoding fails both lookups return the error "Failed to parse the result" next to the zero
record, and when it succeeds they return the record built from the payload and no error (the
arrival lookup builds it from the first geometry entry and panics when there is none). -/
theorem fetch_by_status (net : Remote) (id : String) :
    ((net.httpGet (timingURL id) = none ∨
        ∃ resp, net.httpGet (timingURL id) = some resp ∧ resp.StatusCode = 500) →
      busInfoService.fetchBusTimingAPI net id =
        some (busStopArrivalInfo.zero, some ⟨400, "No Such ID"⟩)) ∧
    ((net.httpGet (locationURL id) = none ∨
        ∃ resp, net.httpGet (locationURL id) = some resp ∧ resp.StatusCode = 500) →
      busInfoService.fetchBusLocationAPI net id =
        (busLocationInfo.zero, some ⟨400, "No Such ID"⟩)) ∧
    (∀ resp, net.httpGet (timingURL id) = some resp → resp.StatusCode ≠ 500 →
      (net.decodeStop resp.Body = none →
        busInfoService.fetchBusTimingAPI net id =
          some (busStopArrivalInfo.zero, some ⟨400, "Failed to parse the result"⟩)) ∧
      (∀ result, net.decodeStop resp.Body = some result →
        busInfoService.fetchBusTimingAPI net id =
          (result.Geometry[0]?).map (fun g =>
            (({ EstimatedRemainingTime := (extractJSONForecastValues result).1
                RouteName := (extractJSONForecastValues result).2.1
                RoutevariantID := (extractJSONForecastValues result).2.2
                BusStopInfo := { Name := result.Name, Lat := g.Lat, Lon := g.Lon } } :
                busStopArrivalInfo), (none : Option errorMessage))))) ∧
    (∀ resp, net.httpGet (locationURL id) = some resp → resp.StatusCode ≠ 500 →
      (net.decodeLine resp.Body = none →
        busInfoService.fetchBusLocationAPI net id =
          (busLocationInfo.zero, some ⟨400, "Failed to parse the result"⟩)) ∧
      (∀ result, net.decodeLine resp.Body = some result →
        busInfoService.fetchBusLocationAPI net id =
          (({ RouteName := result.RouteName
              RoutevariantID := result.ID
              BusCurrentLat := (extractJSONVehicleValues result).1
              BusCurrentLong := (extractJSONVehicleValues result).2.1
              BusCurrentSpeed := (extractJSONVehicleValues result).2.2 } : busLocationInfo),
            (none : Option errorMessage)))) := by
  refine ⟨?_, ?_, ?_, ?_⟩
  · intro h
    unfold busInfoService.fetchBusTimingAPI
    rcases h with h | ⟨resp, h, hs⟩
    · rw [h]
    · rw [h]; simp [hs]
  · intro h
    unfold busInfoService.fetchBusLocationAPI
    rcases h with h | ⟨resp, h, hs⟩
    · rw [h]
    · rw [h]; simp [hs]
  · intro resp hg hs
    refine ⟨?_, ?_⟩
    · intro hd
      unfold busInfoService.fetchBusTimingAPI
      rw [hg]
      simp only [hs, if_false, hd]
    · intro result hd
      exact fetchBusTimingAPI_decoded net id resp result hg hs hd
  · intro resp hg hs
    refine ⟨?_, ?_⟩
    · intro hd
      unfold busInfoService.fetchBusLocationAPI
      rw [hg]
      simp only [hs, if_false, hd]
    · intro result hd
      unfold busInfoService.fetchBusLocationAPI
      rw [hg]
      simp only [hs, if_false, hd]

/-- Witness of C10: stop 378202 and line 44479 answer with status 500 and a well-formed body,
line 44480 is not reachable; stop 383050 and line 44478 answer with status 503 and the same
well-formed bodies; stop 378233 (status 502) and line 44481 (status 200) answer with a body
that does not decode. -/
theorem fetch_by_status_witness :
    statusRemote.httpGet (timingURL "378202") = some ⟨500, "stop-7"⟩ ∧
    statusRemote.httpGet (locationURL "44479") = some ⟨500, "line-7"⟩ ∧
    statusRemote.httpGet (locationURL "44480") = none ∧
    busInfoService.fetchBusTimingAPI statusRemote "378202" =
      some (busStopArrivalInfo.zero, some ⟨400, "No Such ID"⟩) ∧
    busInfoService.fetchBusLocationAPI statusRemote "44479" =
      (busLocationInfo.zero, some ⟨400, "No Such ID"⟩) ∧
    busInfoService.fetchBusLocationAPI statusRemote "44480" =
      (busLocationInfo.zero, some ⟨400, "No Such ID"⟩) ∧
    busInfoService.fetchBusTimingAPI statusRemote "383050" =
      some (⟨120.5, "44A", 7, ⟨"A", "10.1", "20.2"⟩⟩, none) ∧
    busInfoService.fetchBusLocationAPI statusRemote "44478" =
      (⟨"44", 7, "1.23", "4.56", "30"⟩, none) ∧
    busInfoService.fetchBusTimingAPI statusRemote "378233" =
      some (busStopArrivalInfo.zero, some ⟨400, "Failed to parse the result"⟩) ∧
    busInfoService.fetchBusLocationAPI statusRemote "44481" =
      (busLocationInfo.zero, some ⟨400, "Failed to parse the result"⟩) :=
  ⟨rfl, rfl, rfl,
    (fetch_by_status statusRemote "378202").1 (Or.inr ⟨_, rfl, rfl⟩),
    (fetch_by_status statusRemote "44479").2.1 (Or.inr ⟨_, rfl, rfl⟩),
    (fetch_by_status statusRemote "44480").2.1 (Or.inl rfl),
    ((fetch_by_status statusRemote "383050").2.2.1 ⟨503, "stop-7"⟩ rfl (by decide)).2
      { Forecast := [⟨120.5, ⟨"44A"⟩, 7, ""⟩], Geometry := [⟨"10.1", "20.2"⟩], Name := "A" } rfl,
    ((fetch_by_status statusRemote "44478").2.2.2 ⟨503, "line-7"⟩ rfl (by decide)).2
      { ID := 7, RouteName := "44", Vehicle := [⟨"1.23", "4.56", "30"⟩] } rfl,
    ((fetch_by_status statusRemote "378233").2.2.1 ⟨502, "garbage"⟩ rfl (by decide)).1 rfl,
    ((fetch_by_status statusRemote "44481").2.2.2 ⟨200, "garbage"⟩ rfl (by decide)).1 rfl⟩

end BusTiming
